import Mathlib

/-!
Verification of the client-side contract logic of the Immo-Eliza deployment
front end (`streamlit.py`): the payload builder that serializes the property
form into the prediction API's JSON shape, the two HTTP helpers
(`check_api_health`, `make_prediction`) and the success renderer.

The Python code is embedded shallowly: the form widgets' values become a
`FormState` record, the payload dict becomes an association list of
JSON-like values, network effects are modelled by passing the HTTP outcome
(a response with status/text/parsed body, or a transport exception) as an
explicit argument, and the one `requests.get`/`requests.post` call each
helper issues is described by an `HttpRequest` record.
-/

namespace ImmoEliza

/-- JSON-like values as produced by the Python code: `None`, booleans,
numbers (ints and floats of the source, modelled as rationals), strings and
objects. -/
inductive JValue where
  | null
  | bool (b : Bool)
  | num (q : Rat)
  | str (s : String)
  | obj (fields : List (String × JValue))

/-- Test for the Python `v is None` check used at streamlit.py:508. -/
def JValue.isNull : JValue → Bool
  | .null => true
  | _ => false

/-- The values of the input widgets of `main` (streamlit.py:387-473).
Numeric inputs are integers (the `st.number_input` calls use integer
`min_value`/`max_value`/`value`, and their minima are 0, so `Nat`);
`postal_code` is the free-text `st.text_input`; the select boxes yield
strings; the 16 feature checkboxes yield booleans. -/
structure FormState where
  property_type : String
  bedrooms : Nat
  bathrooms : Nat
  habitable_surface : Nat
  province : String
  postal_code : String
  epc_score : String
  toilets : Nat
  terrace_surface : Nat
  garden_surface : Nat
  has_garden : Bool
  has_terrace : Bool
  has_fireplace : Bool
  has_living_room : Bool
  has_attic : Bool
  has_basement : Bool
  has_office : Bool
  has_dining_room : Bool
  has_dressing_room : Bool
  has_lift : Bool
  has_swimming_pool : Bool
  has_air_conditioning : Bool
  has_armored_door : Bool
  has_visiophone : Bool
  has_heat_pump : Bool
  has_photovoltaic : Bool

/-- The `prediction_data` dict literal of streamlit.py:478-505, before the
`None` values are removed.  Python dicts with string-literal keys keep
insertion order, so an association list is a faithful model. -/
def prediction_data_raw (f : FormState) : List (String × JValue) :=
  [ ("type", .str f.property_type)
  , ("bedroomCount", .num f.bedrooms)
  , ("bathroomCount", .num f.bathrooms)
  , ("habitableSurface", .num f.habitable_surface)
  , ("province", .str f.province)
  , ("postCode", .str f.postal_code)
  , ("epcScore", .str f.epc_score)
  , ("toiletCount", .num f.toilets)
  , ("terraceSurface", if f.terrace_surface > 0 then .num f.terrace_surface else .null)
  , ("gardenSurface", if f.garden_surface > 0 then .num f.garden_surface else .null)
  , ("hasGarden", .bool f.has_garden)
  , ("hasTerrace", .bool f.has_terrace)
  , ("hasFireplace", .bool f.has_fireplace)
  , ("hasLivingRoom", .bool f.has_living_room)
  , ("hasAttic", .bool f.has_attic)
  , ("hasBasement", .bool f.has_basement)
  , ("hasOffice", .bool f.has_office)
  , ("hasDiningRoom", .bool f.has_dining_room)
  , ("hasDressingRoom", .bool f.has_dressing_room)
  , ("hasLift", .bool f.has_lift)
  , ("hasSwimmingPool", .bool f.has_swimming_pool)
  , ("hasAirConditioning", .bool f.has_air_conditioning)
  , ("hasArmoredDoor", .bool f.has_armored_door)
  , ("hasVisiophone", .bool f.has_visiophone)
  , ("hasHeatPump", .bool f.has_heat_pump)
  , ("hasPhotovoltaicPanels", .bool f.has_photovoltaic)
  ]

/-- The payload actually sent: the dict comprehension at streamlit.py:508
removes the entries whose value is `None`. -/
def prediction_data (f : FormState) : List (String × JValue) :=
  (prediction_data_raw f).filter (fun kv => !kv.2.isNull)

/-- The widget default values (streamlit.py:387-473): APARTMENT, 2 bedrooms,
1 bathroom, 85 m², Brussels, postal code "1000", EPC B, 1 toilet, both
optional surfaces 0, only `has_living_room` checked. -/
def exampleForm : FormState :=
  { property_type := "APARTMENT"
  , bedrooms := 2
  , bathrooms := 1
  , habitable_surface := 85
  , province := "Brussels"
  , postal_code := "1000"
  , epc_score := "B"
  , toilets := 1
  , terrace_surface := 0
  , garden_surface := 0
  , has_garden := false
  , has_terrace := false
  , has_fireplace := false
  , has_living_room := true
  , has_attic := false
  , has_basement := false
  , has_office := false
  , has_dining_room := false
  , has_dressing_room := false
  , has_lift := false
  , has_swimming_pool := false
  , has_air_conditioning := false
  , has_armored_door := false
  , has_visiophone := false
  , has_heat_pump := false
  , has_photovoltaic := false
  }

/-- The fixed backend base URL (streamlit.py:316). -/
def API_BASE_URL : String := "https://immo-eliza-deployment-01ya.onrender.com"

/-- Description of one `requests` call: method, URL, headers, optional JSON
body and the `timeout` keyword argument, in seconds. -/
structure HttpRequest where
  method : String
  url : String
  headers : List (String × String)
  jsonBody : Option (List (String × JValue))
  timeoutSeconds : Nat

/-- What the network did for one request: either an HTTP response (with
status code, body text, and the parsed JSON body that `response.json()`
would yield) or a `requests.RequestException` carrying a message.  A
timeout raises `requests.Timeout`, a subclass of `RequestException`, so it
is a `transportError` here. -/
inductive HttpOutcome where
  | response (status : Nat) (text : String) (jsonBody : JValue)
  | transportError (message : String)

/-- The request issued by `check_api_health` (streamlit.py:322):
`requests.get(f"(API_BASE_URL)/health", timeout=10)`. -/
def check_api_health_request : HttpRequest :=
  { method := "GET"
  , url := API_BASE_URL ++ "/health"
  , headers := []
  , jsonBody := none
  , timeoutSeconds := 10 }

/-- The second component returned by `check_api_health`: the parsed JSON
body on success, Python `None` on a non-200 response, or `str(e)` on a
`RequestException`. -/
inductive HealthDetail where
  | jsonData (j : JValue)
  | noDetail
  | errMsg (s : String)

/-- `check_api_health` (streamlit.py:319-325) as a function of the HTTP
outcome.  The source returns
`response.status_code == 200, response.json() if response.status_code == 200 else None`
and, on `requests.RequestException as e`, `False, str(e)`. -/
def check_api_health : HttpOutcome → Bool × HealthDetail
  | .response status _ j =>
      (status == 200, if status = 200 then .jsonData j else .noDetail)
  | .transportError e => (false, .errMsg e)

/-- The request issued by `make_prediction` (streamlit.py:330-335): a POST
to `/predict` with the JSON payload, `Content-Type: application/json`, and
`timeout=30`. -/
def make_prediction_request (data : List (String × JValue)) : HttpRequest :=
  { method := "POST"
  , url := API_BASE_URL ++ "/predict"
  , headers := [("Content-Type", "application/json")]
  , jsonBody := some data
  , timeoutSeconds := 30 }

/-- The second component returned by `make_prediction`: the parsed JSON
body on success or an error message string. -/
inductive PredResult where
  | jsonData (j : JValue)
  | message (s : String)

/-- `make_prediction` (streamlit.py:327-342) as a function of the HTTP
outcome: 200 yields `(True, response.json())`; any other status yields
`(False, f"API Error: (status_code) - (text)")`; a `RequestException e`
yields `(False, f"Connection Error: (str(e))")`. -/
def make_prediction : HttpOutcome → Bool × PredResult
  | .response status text j =>
      if status = 200 then (true, .jsonData j)
      else (false, .message ("API Error: " ++ toString status ++ " - " ++ text))
  | .transportError e => (false, .message ("Connection Error: " ++ e))

/-- The fields of a parsed 200 response body, as read by the renderer at
streamlit.py:515-530 via `result.get("predicted_price", 0)`,
`result.get('currency', 'EUR')`, `result.get('timestamp', 'N/A')` and
`'input_summary' in result`.  Numbers are modelled as rationals. -/
structure PredictionResponse where
  predicted_price : Option Rat
  currency : Option String
  timestamp : Option String
  input_summary : Option JValue

/-- Thousands grouping: walking the reversed digit list, emit a comma
before each new group of three digits. -/
def insertCommas3 : List Char → Nat → List Char
  | [], _ => []
  | c :: rest, 0 => ',' :: c :: insertCommas3 rest 2
  | c :: rest, k + 1 => c :: insertCommas3 rest k

/-- Insert a comma every three digits, counting from the right, as the
Python `,` format flag does for the integer part. -/
def groupThousands (s : String) : String :=
  String.mk (insertCommas3 s.data.reverse 3).reverse

/-- Render a natural number below 100 as exactly two digits. -/
def twoDigits (n : Nat) : String :=
  if n < 10 then "0" ++ toString n else toString n

/-- Format a non-negative rational with two decimal places and thousands
separators.  The number of cents is `floor(q * 100 + 1/2)`, computed on
numerator and denominator: `(200 * num + den) / (2 * den)`. -/
def formatNonneg2 (q : Rat) : String :=
  let cents := (200 * q.num.toNat + q.den) / (2 * q.den)
  groupThousands (toString (cents / 100)) ++ "." ++ twoDigits (cents % 100)

/-- The `:,.2f` format specifier applied to `predicted_price` at
streamlit.py:519: two decimal places and thousands separators, with a
leading minus sign for negative values. -/
def formatFixed2 (q : Rat) : String :=
  if q < 0 then "-" ++ formatNonneg2 (-q) else formatNonneg2 q

/-- What `main` shows after a successful prediction (streamlit.py:514-530):
the prediction-result markdown block, the completion message, and the input
summary block, which is rendered only when the response has one. -/
structure RenderedSuccess where
  resultHtml : String
  completionMsg : String
  inputSummaryShown : Option JValue

/-- The literal template text before the interpolated price. -/
def htmlBeforePrice : String :=
  "<div class=\"prediction-result\">\n    <h2>🎯 Predicted Price</h2>\n    <h1>"

/-- The literal template text between the price and the currency slot. -/
def htmlMid : String := "</h1>\n    <p>"

/-- The literal template text after the interpolated currency. -/
def htmlAfterCurrency : String := "</p>\n</div>"

/-- The success branch of `main` (streamlit.py:514-530): interpolate
`€` followed by the formatted price (defaulting the missing price to 0)
and `Currency: ` followed by the currency (defaulting to `EUR`) into the
markdown template; always emit the completion message with the timestamp
or `N/A`; show the input summary only when present. -/
def renderSuccess (result : PredictionResponse) : RenderedSuccess :=
  { resultHtml :=
      htmlBeforePrice ++ ("€" ++ formatFixed2 (result.predicted_price.getD 0))
        ++ htmlMid ++ ("Currency: " ++ result.currency.getD "EUR")
        ++ htmlAfterCurrency
  , completionMsg := "✅ Prediction completed at " ++ result.timestamp.getD "N/A"
  , inputSummaryShown := result.input_summary }

/-- `sub` occurs as a contiguous substring of `s`. -/
def strContains (s sub : String) : Prop := ∃ a b, s = a ++ (sub ++ b)

/-- The 26 payload keys, in the insertion order of the dict literal at
streamlit.py:478-505. -/
def payloadKeys : List String :=
  [ "type", "bedroomCount", "bathroomCount", "habitableSurface", "province"
  , "postCode", "epcScore", "toiletCount", "terraceSurface", "gardenSurface"
  , "hasGarden", "hasTerrace", "hasFireplace", "hasLivingRoom", "hasAttic"
  , "hasBasement", "hasOffice", "hasDiningRoom", "hasDressingRoom", "hasLift"
  , "hasSwimmingPool", "hasAirConditioning", "hasArmoredDoor", "hasVisiophone"
  , "hasHeatPump", "hasPhotovoltaicPanels" ]

/-- The mocked 200 response body of the spec's example:
`predicted_price` 275000.5 and `currency` EUR. -/
def example200 : PredictionResponse :=
  { predicted_price := some (Rat.mk' 550001 2 (by decide) (by decide))
  , currency := some "EUR"
  , timestamp := none
  , input_summary := none }

/-- A response body that carries no `currency` field. -/
def exampleNoCurrency : PredictionResponse :=
  { predicted_price := some ((100000 : Nat) : Rat)
  , currency := none
  , timestamp := none
  , input_summary := none }

/-- A response body with a timestamp and an input summary. -/
def exampleTimestamped : PredictionResponse :=
  { predicted_price := some ((250000 : Nat) : Rat)
  , currency := some "EUR"
  , timestamp := some "2025-07-01T12:00:00"
  , input_summary := some (.obj [("type", .str "HOUSE")]) }

/-- A 200 response body with no `predicted_price` field. -/
def exampleMissingPrice : PredictionResponse :=
  { predicted_price := none
  , currency := none
  , timestamp := none
  , input_summary := none }

/-- The built payload binds `terraceSurface` to the form value exactly when
the form value is positive, and to nothing otherwise. -/
lemma lookup_terrace (f : FormState) :
    (prediction_data f).lookup "terraceSurface"
      = if f.terrace_surface > 0 then some (JValue.num f.terrace_surface) else none := by
  obtain ⟨pt, bed, bath, hab, prov, post, epc, toil, ts, gs, g1, g2, g3, g4, g5, g6,
    g7, g8, g9, g10, g11, g12, g13, g14, g15, g16⟩ := f
  cases ts <;> cases gs <;>
    first
      | rfl
      | · simp only [prediction_data, prediction_data_raw, if_pos (Nat.succ_pos _)]
          rfl

/-- The built payload binds `gardenSurface` to the form value exactly when
the form value is positive, and to nothing otherwise. -/
lemma lookup_garden (f : FormState) :
    (prediction_data f).lookup "gardenSurface"
      = if f.garden_surface > 0 then some (JValue.num f.garden_surface) else none := by
  obtain ⟨pt, bed, bath, hab, prov, post, epc, toil, ts, gs, g1, g2, g3, g4, g5, g6,
    g7, g8, g9, g10, g11, g12, g13, g14, g15, g16⟩ := f
  cases ts <;> cases gs <;>
    first
      | rfl
      | · simp only [prediction_data, prediction_data_raw, if_pos (Nat.succ_pos _)]
          rfl

/-- In an association list, a key looks up to nothing exactly when no
binding carries that key. -/
lemma lookup_eq_none_iff {β : Type} (k : String) (l : List (String × β)) :
    l.lookup k = none ↔ k ∉ l.map Prod.fst := by
  induction l with
  | nil => simp [List.lookup]
  | cons p rest ih =>
    obtain ⟨k', v⟩ := p
    by_cases h : k = k'
    · subst h
      simp [List.lookup]
    · have hb : (k == k') = false := beq_eq_false_iff_ne.mpr h
      simp [List.lookup, hb, ih, h]

/-- A zero terrace surface leaves no `terraceSurface` key in the payload. -/
lemma terrace_zero_not_mem (f : FormState) (h : f.terrace_surface = 0) :
    "terraceSurface" ∉ (prediction_data f).map Prod.fst := by
  refine (lookup_eq_none_iff _ _).mp ?_
  rw [lookup_terrace f, h]
  rfl

/-- A zero garden surface leaves no `gardenSurface` key in the payload. -/
lemma garden_zero_not_mem (f : FormState) (h : f.garden_surface = 0) :
    "gardenSurface" ∉ (prediction_data f).map Prod.fst := by
  refine (lookup_eq_none_iff _ _).mp ?_
  rw [lookup_garden f, h]
  rfl

/-- Filtering by the very predicate being checked leaves no null value. -/
lemma all_not_null (f : FormState) :
    ((prediction_data f).all fun kv => !kv.2.isNull) = true :=
  List.all_eq_true.mpr (fun _ hm => (List.mem_filter.mp hm).2)

/-- The rendered prediction block contains the euro sign followed by the
formatted price. -/
lemma resultHtml_contains_price (r : PredictionResponse) :
    strContains (renderSuccess r).resultHtml
      ("€" ++ formatFixed2 (r.predicted_price.getD 0)) :=
  ⟨htmlBeforePrice,
   htmlMid ++ ("Currency: " ++ r.currency.getD "EUR") ++ htmlAfterCurrency,
   by simp [renderSuccess, String.append_assoc]⟩

/-- The rendered prediction block contains `Currency: ` followed by the
currency code (defaulted to EUR). -/
lemma resultHtml_contains_currency (r : PredictionResponse) :
    strContains (renderSuccess r).resultHtml
      ("Currency: " ++ r.currency.getD "EUR") :=
  ⟨htmlBeforePrice ++ ("€" ++ formatFixed2 (r.predicted_price.getD 0)) ++ htmlMid,
   htmlAfterCurrency,
   by simp [renderSuccess, String.append_assoc]⟩

/-- C1: the payload built on submit contains `terraceSurface` (resp.
`gardenSurface`) exactly when the form's surface value is strictly
positive, and then it maps to exactly that value; a zero value leaves the
key out entirely rather than sending 0. -/
theorem payload_surface_keys_iff_positive (f : FormState) :
    ((prediction_data f).lookup "terraceSurface"
      = if f.terrace_surface > 0 then some (JValue.num f.terrace_surface) else none)
  ∧ ((prediction_data f).lookup "gardenSurface"
      = if f.garden_surface > 0 then some (JValue.num f.garden_surface) else none)
  ∧ (f.terrace_surface = 0 → "terraceSurface" ∉ (prediction_data f).map Prod.fst)
  ∧ (f.garden_surface = 0 → "gardenSurface" ∉ (prediction_data f).map Prod.fst) :=
  ⟨lookup_terrace f, lookup_garden f, terrace_zero_not_mem f, garden_zero_not_mem f⟩

/-- C1 witness: at the widget defaults (both surfaces 0) the payload has
neither optional surface key. -/
theorem payload_surface_keys_iff_positive_witness :
    (prediction_data exampleForm).lookup "terraceSurface" = none
  ∧ "gardenSurface" ∉ (prediction_data exampleForm).map Prod.fst :=
  ⟨(payload_surface_keys_iff_positive exampleForm).1,
   (payload_surface_keys_iff_positive exampleForm).2.2.2 rfl⟩

/-- C4: the payload sent to the API never contains a key whose value is
null, and zero-valued optional surfaces are dropped entirely. -/
theorem payload_never_null (f : FormState) :
    ((prediction_data f).all fun kv => !kv.2.isNull) = true
  ∧ (f.terrace_surface = 0 → "terraceSurface" ∉ (prediction_data f).map Prod.fst)
  ∧ (f.garden_surface = 0 → "gardenSurface" ∉ (prediction_data f).map Prod.fst) :=
  ⟨all_not_null f, terrace_zero_not_mem f, garden_zero_not_mem f⟩

/-- C4 witness: at the widget defaults the payload has no null value and
no `terraceSurface` key. -/
theorem payload_never_null_witness :
    ((prediction_data exampleForm).all fun kv => !kv.2.isNull) = true
  ∧ "terraceSurface" ∉ (prediction_data exampleForm).map Prod.fst :=
  ⟨(payload_never_null exampleForm).1, (payload_never_null exampleForm).2.1 rfl⟩

/-- C5: the built payload always contains all 16 boolean feature keys,
each bound to exactly the boolean set in the form, whatever the other
fields are. -/
theorem payload_bool_flags (f : FormState) :
    (prediction_data f).lookup "hasGarden" = some (.bool f.has_garden)
  ∧ (prediction_data f).lookup "hasTerrace" = some (.bool f.has_terrace)
  ∧ (prediction_data f).lookup "hasFireplace" = some (.bool f.has_fireplace)
  ∧ (prediction_data f).lookup "hasLivingRoom" = some (.bool f.has_living_room)
  ∧ (prediction_data f).lookup "hasAttic" = some (.bool f.has_attic)
  ∧ (prediction_data f).lookup "hasBasement" = some (.bool f.has_basement)
  ∧ (prediction_data f).lookup "hasOffice" = some (.bool f.has_office)
  ∧ (prediction_data f).lookup "hasDiningRoom" = some (.bool f.has_dining_room)
  ∧ (prediction_data f).lookup "hasDressingRoom" = some (.bool f.has_dressing_room)
  ∧ (prediction_data f).lookup "hasLift" = some (.bool f.has_lift)
  ∧ (prediction_data f).lookup "hasSwimmingPool" = some (.bool f.has_swimming_pool)
  ∧ (prediction_data f).lookup "hasAirConditioning" = some (.bool f.has_air_conditioning)
  ∧ (prediction_data f).lookup "hasArmoredDoor" = some (.bool f.has_armored_door)
  ∧ (prediction_data f).lookup "hasVisiophone" = some (.bool f.has_visiophone)
  ∧ (prediction_data f).lookup "hasHeatPump" = some (.bool f.has_heat_pump)
  ∧ (prediction_data f).lookup "hasPhotovoltaicPanels" = some (.bool f.has_photovoltaic) := by
  obtain ⟨pt, bed, bath, hab, prov, post, epc, toil, ts, gs, g1, g2, g3, g4, g5, g6,
    g7, g8, g9, g10, g11, g12, g13, g14, g15, g16⟩ := f
  cases ts <;> cases gs <;>
    first
      | exact ⟨rfl, rfl, rfl, rfl, rfl, rfl, rfl, rfl, rfl, rfl, rfl, rfl, rfl, rfl, rfl, rfl⟩
      | · simp only [prediction_data, prediction_data_raw, if_pos (Nat.succ_pos _)]
          exact ⟨rfl, rfl, rfl, rfl, rfl, rfl, rfl, rfl, rfl, rfl, rfl, rfl, rfl, rfl, rfl, rfl⟩

/-- C8: the dict literal binds exactly the 26 documented keys, in a fixed
order and without duplicates; each always-present scalar key carries the
form value unchanged, and `bedrooms = 3` turns into `bedroomCount = 3`. -/
theorem payload_key_mapping (f : FormState) :
    (prediction_data_raw f).map Prod.fst = payloadKeys
  ∧ payloadKeys.Nodup
  ∧ (prediction_data f).lookup "type" = some (.str f.property_type)
  ∧ (prediction_data f).lookup "bedroomCount" = some (.num f.bedrooms)
  ∧ (prediction_data f).lookup "bathroomCount" = some (.num f.bathrooms)
  ∧ (prediction_data f).lookup "habitableSurface" = some (.num f.habitable_surface)
  ∧ (prediction_data f).lookup "province" = some (.str f.province)
  ∧ (prediction_data f).lookup "postCode" = some (.str f.postal_code)
  ∧ (prediction_data f).lookup "epcScore" = some (.str f.epc_score)
  ∧ (prediction_data f).lookup "toiletCount" = some (.num f.toilets)
  ∧ (prediction_data { exampleForm with bedrooms := 3 }).lookup "bedroomCount"
      = some (.num ((3 : Nat) : Rat)) :=
  ⟨rfl, by decide, rfl, rfl, rfl, rfl, rfl, rfl, rfl, rfl, rfl⟩

/-- C2: `make_prediction` succeeds exactly on HTTP 200, returning the
parsed JSON body; a non-200 status yields the message
`API Error: (status) - (body)`; a transport failure (timeout included)
yields `Connection Error: ` followed by the exception message; in
particular a 500 with body `model unavailable` yields
`API Error: 500 - model unavailable`. -/
theorem make_prediction_spec :
    (∀ t j, make_prediction (.response 200 t j) = (true, .jsonData j))
  ∧ (∀ s t j, s ≠ 200 →
      make_prediction (.response s t j)
        = (false, .message ("API Error: " ++ toString s ++ " - " ++ t)))
  ∧ (∀ e, make_prediction (.transportError e)
        = (false, .message ("Connection Error: " ++ e)))
  ∧ (∀ o, (make_prediction o).1 = true ↔ ∃ t j, o = .response 200 t j)
  ∧ make_prediction (.response 500 "model unavailable" (.obj []))
      = (false, .message "API Error: 500 - model unavailable") := by
  refine ⟨fun t j => rfl, ?_, fun e => rfl, ?_, rfl⟩
  · intro s t j h
    simp [make_prediction, h]
  · intro o
    cases o with
    | response s t j =>
      by_cases h : s = 200
      · subst h
        exact ⟨fun _ => ⟨t, j, rfl⟩, fun _ => rfl⟩
      · constructor
        · intro hh
          simp [make_prediction, h] at hh
        · rintro ⟨t', j', heq⟩
          injection heq with h1
          exact absurd h1 h
    | transportError e =>
      constructor
      · intro hh
        simp [make_prediction] at hh
      · rintro ⟨t', j', heq⟩
        exact HttpOutcome.noConfusion heq

/-- C2 witness: a concrete 503 response with body `boom` yields the
documented API-error message. -/
theorem make_prediction_spec_witness :
    make_prediction (.response 503 "boom" (.obj []))
      = (false, .message "API Error: 503 - boom") :=
  make_prediction_spec.2.1 503 "boom" (.obj []) (by decide)

/-- C3 counterexample: on a 503 response with a non-empty body,
`check_api_health` reports unhealthy with detail `None` — it does not
carry the status code and body as the claim states. -/
theorem check_api_health_503_counterexample :
    check_api_health (.response 503 "Service Unavailable" (.obj []))
      = (false, HealthDetail.noDetail) := rfl

/-- C3 amended: `check_api_health` reports healthy exactly on HTTP 200,
returning the parsed JSON body; on a non-200 status it returns unhealthy
with detail `None` (no error information); only on a transport failure
does the detail carry the exception message. -/
theorem check_api_health_amended :
    (∀ t j, check_api_health (.response 200 t j) = (true, .jsonData j))
  ∧ (∀ s t j, s ≠ 200 → check_api_health (.response s t j) = (false, .noDetail))
  ∧ (∀ e, check_api_health (.transportError e) = (false, .errMsg e))
  ∧ (∀ o, (check_api_health o).1 = true ↔ ∃ t j, o = .response 200 t j) := by
  refine ⟨fun t j => rfl, ?_, fun e => rfl, ?_⟩
  · intro s t j h
    simp [check_api_health, h]
  · intro o
    cases o with
    | response s t j =>
      by_cases h : s = 200
      · subst h
        exact ⟨fun _ => ⟨t, j, rfl⟩, fun _ => rfl⟩
      · constructor
        · intro hh
          exact absurd (eq_of_beq hh) h
        · rintro ⟨t', j', heq⟩
          injection heq with h1
          exact absurd h1 h
    | transportError e =>
      constructor
      · intro hh
        simp [check_api_health] at hh
      · rintro ⟨t', j', heq⟩
        exact HttpOutcome.noConfusion heq

/-- C3 witness: a concrete 503 response yields unhealthy with detail
`None`. -/
theorem check_api_health_amended_witness :
    check_api_health (.response 503 "down" (.obj [])) = (false, HealthDetail.noDetail) :=
  check_api_health_amended.2.1 503 "down" (.obj []) (by decide)

/-- C6: the success renderer shows the price formatted with two decimals
and thousands separators after the euro sign, together with the currency
code defaulted to EUR; the spec's 200 example renders a string containing
`€275,000.50` and `EUR`. -/
theorem render_success_price_currency (r : PredictionResponse) :
    strContains (renderSuccess r).resultHtml
      ("€" ++ formatFixed2 (r.predicted_price.getD 0))
  ∧ strContains (renderSuccess r).resultHtml
      ("Currency: " ++ r.currency.getD "EUR")
  ∧ (r.currency = none → strContains (renderSuccess r).resultHtml "Currency: EUR")
  ∧ strContains (renderSuccess example200).resultHtml "€275,000.50"
  ∧ strContains (renderSuccess example200).resultHtml "EUR" := by
  refine ⟨resultHtml_contains_price r, resultHtml_contains_currency r, ?_, ?_, ?_⟩
  · intro h
    have base := resultHtml_contains_currency r
    rw [h] at base
    exact base
  · exact ⟨htmlBeforePrice,
      htmlMid ++ ("Currency: EUR") ++ htmlAfterCurrency, rfl⟩
  · exact ⟨htmlBeforePrice ++ "€275,000.50" ++ htmlMid ++ "Currency: ",
      htmlAfterCurrency, rfl⟩

/-- C6 witness: a response with no currency field renders
`Currency: EUR`. -/
theorem render_success_price_currency_witness :
    strContains (renderSuccess exampleNoCurrency).resultHtml "Currency: EUR" :=
  (render_success_price_currency exampleNoCurrency).2.2.1 rfl

/-- C7: the renderer shows the input summary exactly when the response has
one, and the completion message carries the response timestamp exactly
when present, with the `N/A` placeholder otherwise. -/
theorem render_success_optional_fields (r : PredictionResponse) :
    (renderSuccess r).inputSummaryShown = r.input_summary
  ∧ (∀ t, r.timestamp = some t →
      (renderSuccess r).completionMsg = "✅ Prediction completed at " ++ t)
  ∧ (r.timestamp = none →
      (renderSuccess r).completionMsg = "✅ Prediction completed at N/A") := by
  refine ⟨rfl, ?_, ?_⟩
  · intro t h
    show "✅ Prediction completed at " ++ r.timestamp.getD "N/A" = _
    rw [h]
    rfl
  · intro h
    show "✅ Prediction completed at " ++ r.timestamp.getD "N/A" = _
    rw [h]
    rfl

/-- C7 witness: a response with a timestamp shows it; a response without
one shows `N/A`. -/
theorem render_success_optional_fields_witness :
    (renderSuccess exampleTimestamped).completionMsg
      = "✅ Prediction completed at 2025-07-01T12:00:00"
  ∧ (renderSuccess example200).completionMsg = "✅ Prediction completed at N/A" :=
  ⟨(render_success_optional_fields exampleTimestamped).2.1 "2025-07-01T12:00:00" rfl,
   (render_success_optional_fields example200).2.2 rfl⟩

/-- C9: the health check carries an explicit 10 second timeout and the
prediction request a 30 second one, and a transport failure (the raised
timeout included) makes both helpers return a failure result instead of
hanging. -/
theorem request_timeouts (data : List (String × JValue)) :
    check_api_health_request.timeoutSeconds = 10
  ∧ (make_prediction_request data).timeoutSeconds = 30
  ∧ (∀ e, check_api_health (.transportError e) = (false, .errMsg e))
  ∧ (∀ e, make_prediction (.transportError e)
        = (false, .message ("Connection Error: " ++ e))) :=
  ⟨rfl, rfl, fun _ => rfl, fun _ => rfl⟩

/-- C10: a 200 response without a `predicted_price` field still renders
the success view, with the price defaulted to 0 and shown as `€0.00`. -/
theorem render_missing_price_defaults (r : PredictionResponse)
    (h : r.predicted_price = none) :
    strContains (renderSuccess r).resultHtml "€0.00" := by
  refine ⟨htmlBeforePrice,
    htmlMid ++ ("Currency: " ++ r.currency.getD "EUR") ++ htmlAfterCurrency, ?_⟩
  show htmlBeforePrice ++ ("€" ++ formatFixed2 (r.predicted_price.getD 0))
      ++ htmlMid ++ ("Currency: " ++ r.currency.getD "EUR") ++ htmlAfterCurrency = _
  rw [h]
  rfl

/-- C10 witness: a concrete empty 200 body renders `€0.00`. -/
theorem render_missing_price_defaults_witness :
    strContains (renderSuccess exampleMissingPrice).resultHtml "€0.00" :=
  render_missing_price_defaults exampleMissingPrice rfl

end ImmoEliza
